import Mathlib

/-!
Verification development for `music_assistant/player_manager.py` (the
`PlayerManager` class): a shallow embedding of the player-state
reconciliation engine (`__async_create_player_state` and its helper
methods), the change notifier (`__player_updated`) and the player
commands (`async_play_media`, the power commands and the volume
commands), together with theorems about the embedded definitions.

Modelling conventions:
* Python dicts (`self._players`, `self._player_queues`, ...) become
  association lists `List (String × _)` preserving insertion order;
  `d[k]` / `d.get(k)` become `lookupReg` (an `Option`), assignment to an
  existing key becomes `updateReg` (order preserving, like CPython).
* Python numbers (ints and floats) become `ℚ`; true division is exact
  rational division.  Conversion with `int(...)` becomes `truncInt`.
* Fallible code returns `Except PyErr _`: indexing a dict with a missing
  key is `PyErr.keyError`, calling an attribute on `None` is
  `PyErr.attributeError`.
* `async` calls to providers, controls and queues are modelled as a
  trace of `Effect`s in the order the source issues them; the command
  methods of `PlayerManager` never mutate `self._players`, so the
  command embeddings only return traces.
-/

-- Rational arithmetic stands in for Python numbers; these core operations
-- are irreducible by default, which only hides them from definitional
-- unfolding in concrete evaluations.
attribute [local semireducible] Rat.add Rat.mul Rat.sub Rat.inv

namespace PlayerManager

/-- Playback state of a player (the `PlayerState` enum of the player model). -/
inductive PState
  | Off
  | Playing
  | Paused
  | Idle
deriving DecidableEq, Repr

/-- State value carried by a registered `PlayerControl` (`control.state`).
Python stores a boolean for power controls and a number for volume
controls in the same untyped attribute, so we carry both constructors. -/
inductive CtrlState
  | bool (b : Bool)
  | num (q : ℚ)
deriving DecidableEq, Repr

/-- Python truthiness of a control state, for the places where the code
reads the control state as the power flag. -/
def CtrlState.toBool : CtrlState → Bool
  | .bool b => b
  | .num q => decide (q ≠ 0)

/-- Numeric reading of a control state (Python booleans are integers). -/
def CtrlState.toQ : CtrlState → ℚ
  | .bool b => if b then 1 else 0
  | .num q => q

/-- A player record.  This shape is shared by the raw provider-reported
`Player` objects (`self._org_players` values / the `player` argument of
`__async_create_player_state`) and the calculated records stored in
`self._players`; the raw records simply never have a meaningful
`active_queue` / `cur_queue_item_id`.  `updated_at` is not modelled: it
is written by the `__player_updated` callback, outside the reconciler. -/
structure PlayerRec where
  player_id : String
  provider_id : String
  name : String
  available : Bool
  powered : Bool
  volume_level : ℚ
  muted : Bool
  state : PState
  elapsed_time : Int
  current_uri : String
  is_group_player : Bool
  group_childs : List String
  device_info : String
  should_poll : Bool
  features : List String
  config_entries : List String
  active_queue : String
  cur_queue_item_id : Option String
deriving DecidableEq, Repr

/-- The raw provider-reported player (the `player` argument of
`__async_create_player_state` and of the command helpers).  Elapsed time
is a Python float there (`int(player.elapsed_time)` is applied when it
is stored), hence `ℚ`. -/
structure RawPlayer where
  player_id : String
  provider_id : String
  name : String
  available : Bool
  powered : Bool
  volume_level : ℚ
  muted : Bool
  state : PState
  elapsed_time : ℚ
  current_uri : String
  is_group_player : Bool
  group_childs : List String
  device_info : String
  should_poll : Bool
  features : List String
  config_entries : List String
deriving DecidableEq, Repr

/-- Per-player configuration, the slice of
`self.mass.config.player_settings[player_id]` /
`get_player_config(player_id)` that `PlayerManager` reads.  An unset or
empty (hence falsy) `power_control` / `volume_control` / name override
is `none`. -/
structure PlayerConfig where
  enabled : Bool
  conf_name : Option String
  power_control : Option String
  volume_control : Option String
deriving DecidableEq, Repr

/-- Ambient context of the manager: the configuration store, the control
registry (`self._controls`, `none` for an unknown control id, which
`get_player_control` logs and returns as `None`), the queue registry
(`self._player_queues`, mapping a queue id to its `cur_item_id`; outer
`none` means no such queue), the synthesized control config entries
(`self._player_controls_config_entries`) and provider availability
(`get_provider`, `false` meaning `None`). -/
structure Ctx where
  config : String → PlayerConfig
  controls : String → Option CtrlState
  queues : String → Option (Option String)
  control_config_entries : List String
  providers : String → Bool

/-- The player registry `self._players`: an insertion-ordered
association list, like a CPython dict. -/
abbrev Registry := List (String × PlayerRec)

/-- Dict read: `self._players.get(pid)` (and, where the source indexes
with `self._players[pid]`, callers of this function turn `none` into a
`KeyError`). -/
def lookupReg (players : Registry) (pid : String) : Option PlayerRec :=
  (players.find? (fun e => e.1 == pid)).map (fun e => e.2)

/-- Dict write to an existing key: mutate the value in place, preserving
the position of the entry. -/
def updateReg (players : Registry) (pid : String) (f : PlayerRec → PlayerRec) : Registry :=
  players.map (fun e => if e.1 == pid then (e.1, f e.2) else e)

/-- Modelled from the spec: Python `int(...)` (and `try_parse_int` from
`music_assistant.utils`, which is not under src/) — numeric conversion
by truncation toward zero. -/
def truncInt (q : ℚ) : Int := if q < 0 then -(Int.floor (-q)) else Int.floor q

/-- Modelled from the spec: a freshly constructed
`Player(player_id, provider_id)` record (the `Player` model lives in
`music_assistant.models.player`, not under src/) with neutral defaults;
every field except the two identity fields is overwritten by the
reconciler before it is observed. -/
def newPlayer (pid provider_id : String) : PlayerRec :=
  { player_id := pid
    provider_id := provider_id
    name := ""
    available := false
    powered := false
    volume_level := 0
    muted := false
    state := .Off
    elapsed_time := 0
    current_uri := ""
    is_group_player := false
    group_childs := []
    device_info := ""
    should_poll := false
    features := []
    config_entries := []
    active_queue := pid
    cur_queue_item_id := none }

/-- Lines 477-481 of `__async_create_player_state`: reuse the stored
record for a known player, else create and insert a fresh one (a new
dict key is appended at the end, CPython order). -/
def ensureReg (players : Registry) (pid provider_id : String) : Registry :=
  if (lookupReg players pid).isSome then players
  else players ++ [(pid, newPlayer pid provider_id)]

/-- The membership test of `__get_player_group_parents`: a stored record
is a group parent of `pid` when it is a group player listing `pid` among
its children. -/
def parent_test (pid : String) (st : PlayerRec) : Bool :=
  st.is_group_player && st.group_childs.contains pid

/-- `__get_player_group_parents`: all stored group players whose
`group_childs` contain this player, in registry iteration order; a group
player has no parents. -/
def get_player_group_parents (players : Registry) (raw : RawPlayer) : List String :=
  if raw.is_group_player then []
  else (players.filter (fun e => parent_test raw.player_id e.2)).map (fun e => e.1)

/-- `__get_player_active_queue`: the first group parent that is
currently powered, else the player's own id. -/
def get_player_active_queue (players : Registry) (raw : RawPlayer)
    (group_parents : List String) : String :=
  match group_parents.find?
      (fun gid => ((lookupReg players gid).map (fun g => g.powered)).getD false) with
  | some gid => gid
  | none => raw.player_id

/-- `__get_player_name`: the configured name override if set (truthy),
else the provider-reported name. -/
def get_player_name (ctx : Ctx) (raw : RawPlayer) : String :=
  match (ctx.config raw.player_id).conf_name with
  | some s => s
  | none => raw.name

/-- `__get_player_power_state`: unavailable means off; else a
configured and resolvable power control wins; else the raw power flag. -/
def get_player_power_state (ctx : Ctx) (raw : RawPlayer) : Bool :=
  if raw.available = false then false
  else
    match (ctx.config raw.player_id).power_control with
    | some cid =>
      match ctx.controls cid with
      | some c => c.toBool
      | none => raw.powered
    | none => raw.powered

/-- `__get_player_volume_level`: unavailable means 0; else a configured
and resolvable volume control wins; else a group player averages the
stored volume of its available and powered children (the running
`group_volume` stays 0 when there is no such child); else the raw
volume. -/
def get_player_volume_level (ctx : Ctx) (players : Registry) (raw : RawPlayer) : ℚ :=
  if raw.available = false then 0
  else
    match (ctx.config raw.player_id).volume_control.bind ctx.controls with
    | some c => c.toQ
    | none =>
      if raw.is_group_player then
        let acc := raw.group_childs.foldl
          (fun (acc : ℚ × Nat) cid =>
            match lookupReg players cid with
            | some child =>
              if child.available && child.powered then
                (acc.1 + child.volume_level, acc.2 + 1)
              else acc
            | none => acc)
          ((0 : ℚ), (0 : Nat))
        if acc.2 ≠ 0 then acc.1 / (acc.2 : ℚ) else acc.1
      else raw.volume_level

/-- `__get_player_state`: not available-and-powered (raw flags) means
`Off`; a player following another active queue mirrors the owner's
stored state (the source indexes `self._players[active_parent]`
directly, which is always present there; we totalize with `Off`); else
the raw state. -/
def get_player_state_calc (players : Registry) (raw : RawPlayer)
    (active_parent : String) : PState :=
  if raw.available = false ∨ raw.powered = false then .Off
  else if active_parent ≠ raw.player_id then
    match lookupReg players active_parent with
    | some g => g.state
    | none => .Off
  else raw.state

/-- Lines 485-494 of `__async_create_player_state`: the fields written
before the volume is computed (name, powered, elapsed time and uri —
mirrored from the already-stored active-queue owner when that is another
player —, playback state and availability).  The source indexes
`self._players[active_queue]` directly for the mirror; the owner is
always present there (it came from the parent scan or is the player
itself), so the `none` defaults below only totalize the embedding. -/
def reconcile_main (ctx : Ctx) (raw : RawPlayer) (players0 : Registry) (aq : String)
    (st : PlayerRec) : PlayerRec :=
  { st with
    name := get_player_name ctx raw
    powered := get_player_power_state ctx raw
    elapsed_time :=
      if aq ≠ raw.player_id then
        match lookupReg players0 aq with
        | some owner => owner.elapsed_time
        | none => 0
      else truncInt raw.elapsed_time
    current_uri :=
      if aq ≠ raw.player_id then
        match lookupReg players0 aq with
        | some owner => owner.current_uri
        | none => ""
      else raw.current_uri
    state := get_player_state_calc players0 raw aq
    available := if (ctx.config raw.player_id).enabled = false then false else raw.available }

/-- Lines 495-507 of `__async_create_player_state`: the remaining fields
(volume, mute, group shape, device metadata, merged config entries, the
active queue and its current item; `cur_queue_item_id` keeps its old
value when the active queue has no registered `PlayerQueue`). -/
def reconcile_rest (ctx : Ctx) (raw : RawPlayer) (aq : String) (vol : ℚ)
    (st : PlayerRec) : PlayerRec :=
  { st with
    volume_level := vol
    muted := raw.muted
    is_group_player := raw.is_group_player
    group_childs := raw.group_childs
    device_info := raw.device_info
    should_poll := raw.should_poll
    features := raw.features
    config_entries := raw.config_entries ++ ctx.control_config_entries
    active_queue := aq
    cur_queue_item_id :=
      match ctx.queues aq with
      | some cur => cur
      | none => st.cur_queue_item_id }

/-- `__async_create_player_state`: the reconciliation step.  The
sequencing mirrors the source: the group parents and the active queue
are resolved against the registry as it is before any field write, the
`reconcile_main` fields are written, and the volume level is then
computed against the registry holding that partially updated record
(only visible when a group lists itself as a child).  Storing the raw
snapshot into `self._org_players` has no effect on the calculated
records and is not modelled. -/
def create_player_state (ctx : Ctx) (raw : RawPlayer) (players : Registry) : Registry :=
  let players0 := ensureReg players raw.player_id raw.provider_id
  let gps := get_player_group_parents players0 raw
  let aq := get_player_active_queue players0 raw gps
  let players1 := updateReg players0 raw.player_id (reconcile_main ctx raw players0 aq)
  updateReg players1 raw.player_id
    (reconcile_rest ctx raw aq (get_player_volume_level ctx players1 raw))

/-- Outcome of one `__player_updated` callback invocation: whether the
stored `updated_at` timestamp was written, whether the public
`EVENT_PLAYER_CHANGED` event was emitted, which available children of a
group player got an asynchronous re-reconciliation job, and whether a
queue-state refresh job was scheduled. -/
structure UpdateOutcome where
  touched : Bool
  emitted : Bool
  child_update_jobs : List String
  queue_update_job : Bool
deriving DecidableEq, Repr

/-- `__player_updated` (the change notifier): unknown players are
ignored; updates on an unavailable player are ignored unless the changed
field is the availability itself; a configuration-entries change is
ignored; otherwise the timestamp is written and, unless the change is
elapsed-time only, the public event fires and every available child of a
group player is scheduled for an update; finally a queue refresh is
scheduled when the player owns its own active queue. -/
def player_updated (ctx : Ctx) (players : Registry) (pid changed : String) : UpdateOutcome :=
  match lookupReg players pid with
  | none => ⟨false, false, [], false⟩
  | some player =>
    if player.available = false ∧ changed ≠ "available" then ⟨false, false, [], false⟩
    else if changed = "config_entries" then ⟨false, false, [], false⟩
    else
      let emitted := !(changed == "elapsed_time")
      let childJobs :=
        if emitted && player.is_group_player then
          player.group_childs.filter
            (fun cid => ((lookupReg players cid).map (fun c => c.available)).getD false)
        else []
      ⟨true, emitted, childJobs,
        (ctx.queues pid).isSome && (player.active_queue == pid)⟩

/-- Python exceptions that the command paths can raise: `KeyError` from
indexing a dict with a missing key, `AttributeError` from calling an
attribute on `None`. -/
inductive PyErr
  | keyError
  | attributeError
deriving DecidableEq, Repr

/-- One externally visible side effect of a command, in issue order. -/
inductive Effect
  | provPowerOn (pid : String)
  | provPowerOff (pid : String)
  | provVolumeSet (pid : String) (level : Int)
  | ctrlSetBool (cid : String) (v : Bool)
  | ctrlSetNum (cid : String) (v : Int)
deriving DecidableEq, Repr

deriving instance DecidableEq for Except

/-- The clamp of `async_cmd_volume_set` (lines 376-379): negative input
becomes 0, input above 100 becomes 100. -/
def clampVol (v : Int) : Int := if v < 0 then 0 else if v > 100 then 100 else v

/-- `async_cmd_power_on`: `self._players[player_id]` (KeyError when
unknown), the provider power-on call (`AttributeError` when
`get_player_provider` returned `None`), then — if a power control is
configured and resolvable — a job pushing `True` to the control. -/
def cmd_power_on (ctx : Ctx) (players : Registry) (pid : String) :
    Except PyErr (List Effect) :=
  match lookupReg players pid with
  | none => .error .keyError
  | some player =>
    if ctx.providers player.provider_id = false then .error .attributeError
    else
      match (ctx.config pid).power_control with
      | some cid =>
        match ctx.controls cid with
        | some _ => .ok [Effect.provPowerOn pid, Effect.ctrlSetBool cid true]
        | none => .ok [Effect.provPowerOn pid]
      | none => .ok [Effect.provPowerOn pid]

/-- `async_cmd_power_off`: like power-on with `False`, and additionally
a recursive cascade to every registered child of a group player.  `fuel`
bounds the recursion depth of the embedding (the source recursion is
unbounded); exhausted fuel yields an empty trace. -/
def cmd_power_off (ctx : Ctx) (players : Registry) :
    Nat → String → Except PyErr (List Effect)
  | 0, _ => .ok []
  | fuel + 1, pid =>
    match lookupReg players pid with
    | none => .error .keyError
    | some player =>
      if ctx.providers player.provider_id = false then .error .attributeError
      else
        let base :=
          match (ctx.config pid).power_control with
          | some cid =>
            match ctx.controls cid with
            | some _ => [Effect.provPowerOff pid, Effect.ctrlSetBool cid false]
            | none => [Effect.provPowerOff pid]
          | none => [Effect.provPowerOff pid]
        if player.is_group_player then
          player.group_childs.foldlM
            (fun acc cid =>
              match lookupReg players cid with
              | some _ => (cmd_power_off ctx players fuel cid).map (fun e => acc ++ e)
              | none => .ok acc)
            base
        else .ok base

/-- `async_cmd_power_toggle`: `self._players[player_id]` (KeyError when
unknown), then power off when the calculated power flag is set, else
power on. -/
def cmd_power_toggle (ctx : Ctx) (players : Registry) (fuel : Nat) (pid : String) :
    Except PyErr (List Effect) :=
  match lookupReg players pid with
  | none => .error .keyError
  | some player =>
    if player.powered then cmd_power_off ctx players fuel pid
    else cmd_power_on ctx players pid

/-- `async_cmd_volume_set`: `get_player` returns `None` for an unknown
player and the immediate `player.powered` read then raises
`AttributeError`; an unpowered player returns at once with no effect;
the input is parsed to an int and clamped to `[0,100]`; a configured and
resolvable volume control receives the value while the device is forced
to 100 (a configured but unresolvable control means no action at all);
a group player fans out recursively to each registered, available and
powered child with the proportially scaled target; otherwise the volume
goes straight to the provider.  `fuel` bounds the recursion depth. -/
def cmd_volume_set (ctx : Ctx) (players : Registry) :
    Nat → String → ℚ → Except PyErr (List Effect)
  | 0, _, _ => .ok []
  | fuel + 1, pid, volume_in =>
    match lookupReg players pid with
    | none => .error .attributeError
    | some player =>
      if player.powered = false then .ok []
      else
        let vl : Int := clampVol (truncInt volume_in)
        match (ctx.config pid).volume_control with
        | some cid =>
          match ctx.controls cid with
          | some _ =>
            if ctx.providers player.provider_id = false then .error .attributeError
            else .ok [Effect.ctrlSetNum cid vl, Effect.provVolumeSet pid 100]
          | none => .ok []
        | none =>
          if player.is_group_player then
            let cur := player.volume_level
            let pct : ℚ := if cur = 0 then 1 + (vl : ℚ) / 100 else ((vl : ℚ) - cur) / cur
            player.group_childs.foldlM
              (fun acc cid =>
                match lookupReg players cid with
                | some child =>
                  if child.available && child.powered then
                    (cmd_volume_set ctx players fuel cid
                        (child.volume_level + child.volume_level * pct)).map
                      (fun e => acc ++ e)
                  else .ok acc
                | none => .ok acc)
              []
          else
            if ctx.providers player.provider_id = false then .error .attributeError
            else .ok [Effect.provVolumeSet pid vl]

/-- The targets of the recursive `volumeSet` calls issued by the group
branch of `async_cmd_volume_set` (lines 388-403), as `(child id, target
volume)` pairs in child order, before the callee's own int-parse and
clamp. -/
def group_volume_set_targets (player : PlayerRec) (players : Registry) (vl : Int) :
    List (String × ℚ) :=
  let cur := player.volume_level
  let pct : ℚ := if cur = 0 then 1 + (vl : ℚ) / 100 else ((vl : ℚ) - cur) / cur
  player.group_childs.filterMap
    (fun cid =>
      match lookupReg players cid with
      | some child =>
        if child.available && child.powered then
          some (cid, child.volume_level + child.volume_level * pct)
        else none
      | none => none)

/-- `async_cmd_volume_up`: `self._players[player_id]` (KeyError when
unknown), then `volumeSet(current + 1)` capped at 100. -/
def cmd_volume_up (ctx : Ctx) (players : Registry) (fuel : Nat) (pid : String) :
    Except PyErr (List Effect) :=
  match lookupReg players pid with
  | none => .error .keyError
  | some player =>
    let new_level := player.volume_level + 1
    cmd_volume_set ctx players fuel pid (if new_level > 100 then 100 else new_level)

/-- `async_cmd_volume_down`: `self._players[player_id]` (KeyError when
unknown), then `volumeSet(current - 1)` floored at 0. -/
def cmd_volume_down (ctx : Ctx) (players : Registry) (fuel : Nat) (pid : String) :
    Except PyErr (List Effect) :=
  match lookupReg players pid with
  | none => .error .keyError
  | some player =>
    let new_level := player.volume_level - 1
    cmd_volume_set ctx players fuel pid (if new_level < 0 then 0 else new_level)

/-- The four queue-insertion policies of `async_play_media`
(lines 243-252): `Replace`, or `Play`/`Next` with more than ten expanded
items, loads (replaces) the queue; otherwise `Next` inserts at
position 1, `Play` inserts at position 0, and `Add` appends. -/
inductive QueueAction
  | load
  | insertAt (pos : Nat)
  | append
deriving DecidableEq, Repr

/-- The `QueueOption` enum of the queue model. -/
inductive QueueOption
  | Play
  | Replace
  | Next
  | Add
deriving DecidableEq, Repr

/-- The queue-insertion decision of `async_play_media`, as a function of
the option and the number of expanded queue items. -/
def queue_action_for (queue_opt : QueueOption) (num_items : Nat) : QueueAction :=
  if queue_opt = .Replace ∨ (10 < num_items ∧ (queue_opt = .Play ∨ queue_opt = .Next)) then
    .load
  else if queue_opt = .Next then .insertAt 1
  else if queue_opt = .Play then .insertAt 0
  else .append

/-- `async_play_media`: `self._players[player_id]` raises `KeyError` for
an unknown player (the `if not player: return` guard that follows can
never fire, since dict indexing already raised); the media items are
expanded by the external music manager (abstracted to the expanded item
count `num_items`); the player is powered on; then the queue of the
player's active queue owner receives one of the four insertion
policies (`get_player_queue` returning `None` would raise
`AttributeError` at the first queue call). -/
def cmd_play_media (ctx : Ctx) (players : Registry) (pid : String) (num_items : Nat)
    (queue_opt : QueueOption) : Except PyErr (List Effect × QueueAction) :=
  match lookupReg players pid with
  | none => .error .keyError
  | some player =>
    match cmd_power_on ctx players pid with
    | .error e => .error e
    | .ok powerEff =>
      match ctx.queues player.active_queue with
      | none => .error .attributeError
      | some _ => .ok (powerEff, queue_action_for queue_opt num_items)

/-! ### Derived observers -/

/-- The record that `create_player_state` stores for `raw.player_id`,
spelled out: the `reconcile_main` fields over the pre-write registry,
then the `reconcile_rest` fields with the volume computed over the
registry holding the partially written record. -/
def reconcile_result (ctx : Ctx) (raw : RawPlayer) (players : Registry) : PlayerRec :=
  let players0 := ensureReg players raw.player_id raw.provider_id
  let gps := get_player_group_parents players0 raw
  let aq := get_player_active_queue players0 raw gps
  let players1 := updateReg players0 raw.player_id (reconcile_main ctx raw players0 aq)
  reconcile_rest ctx raw aq (get_player_volume_level ctx players1 raw)
    (reconcile_main ctx raw players0 aq
      ((lookupReg players raw.player_id).getD (newPlayer raw.player_id raw.provider_id)))

/-- The effective volumes of the children of a group that are currently
both available and powered, in child order (the values the group mean of
`__get_player_volume_level` ranges over). -/
def activeChildVolumes (players : Registry) (childs : List String) : List ℚ :=
  childs.filterMap (fun cid =>
    (lookupReg players cid).bind (fun child =>
      if child.available && child.powered then some child.volume_level else none))

/-! ### Concrete fixtures for witnesses and counterexamples -/

/-- A stored player record with the given flags, volume and group shape,
other fields at their defaults. -/
def mkRec (pid : String) (available powered : Bool) (vol : ℚ) (isGroup : Bool)
    (childs : List String) : PlayerRec :=
  { newPlayer pid "prov" with
    available := available, powered := powered, volume_level := vol,
    is_group_player := isGroup, group_childs := childs }

/-- A raw provider report with the given flags, volume and group shape. -/
def mkRaw (pid : String) (available powered : Bool) (vol : ℚ) (isGroup : Bool)
    (childs : List String) : RawPlayer :=
  { player_id := pid, provider_id := "prov", name := pid, available := available,
    powered := powered, volume_level := vol, muted := false, state := .Playing,
    elapsed_time := 5, current_uri := "u", is_group_player := isGroup,
    group_childs := childs, device_info := "", should_poll := false, features := [],
    config_entries := [] }

/-- A context with every player enabled, no name override, no controls
configured or registered, no queues, and every provider resolvable. -/
def noCtrlCtx : Ctx :=
  { config := fun _ =>
      { enabled := true, conf_name := none, power_control := none, volume_control := none }
    controls := fun _ => none
    queues := fun _ => none
    control_config_entries := []
    providers := fun _ => true }

/-- Like `noCtrlCtx` but with the per-player enabled flag off. -/
def disabledCtx : Ctx :=
  { noCtrlCtx with
    config := fun _ =>
      { enabled := false, conf_name := none, power_control := none, volume_control := none } }

/-- A context whose queue registry knows every queue id (with an empty
current item), for the playMedia witnesses. -/
def qCtx : Ctx := { noCtrlCtx with queues := fun _ => some none }

/-- A group whose stored volume is 0, with one available and powered
child at volume 10 (the zero-volume scale-up scenario). -/
def zgGroup : PlayerRec := mkRec "g" true true 0 true ["c"]

/-- The registry for the zero-volume scale-up scenario. -/
def zgReg : Registry := [("g", zgGroup), ("c", mkRec "c" true true 10 false [])]

/-- The fan-out scenario registry: a group at stored volume 50 with two
available, powered children at volumes 40 and 60. -/
def fanReg : Registry :=
  [("g", mkRec "g" true true 50 true ["c1", "c2"]),
   ("c1", mkRec "c1" true true 40 false []),
   ("c2", mkRec "c2" true true 60 false [])]

/-- The raw report used by the C3 witness and counterexample. -/
def c3raw : RawPlayer := mkRaw "p" true true 30 false []

/-- The record reconciliation stores for `c3raw` under `disabledCtx`. -/
def c3rec : PlayerRec :=
  (lookupReg (create_player_state disabledCtx c3raw []) "p").getD (newPlayer "p" "prov")

/-- The group of the C4 witness: children at volumes 20 and 40
(available and powered) plus one unpowered child at volume 7. -/
def c4raw : RawPlayer := mkRaw "g" true true 0 true ["a", "b", "c"]

/-- The registry of stored children for the C4 witness. -/
def c4reg : Registry :=
  [("a", mkRec "a" true true 20 false []),
   ("b", mkRec "b" true true 40 false []),
   ("c", mkRec "c" true false 7 false [])]

/-- The record reconciliation stores for the C4 witness group. -/
def c4rec : PlayerRec :=
  (lookupReg (create_player_state noCtrlCtx c4raw c4reg) "g").getD (newPlayer "g" "prov")

/-- The child of the active-queue migration scenario. -/
def mRaw : RawPlayer := mkRaw "child" true true 25 false []

/-- Migration scenario, first reconciliation: parent A unpowered, parent
B powered. -/
def mReg1 : Registry :=
  [("A", mkRec "A" true false 0 true ["child"]),
   ("B", mkRec "B" true true 0 true ["child"])]

/-- Migration scenario, second reconciliation: B was powered off and A
powered on. -/
def mReg2 : Registry :=
  [("A", mkRec "A" true true 0 true ["child"]),
   ("B", mkRec "B" true false 0 true ["child"])]

/-- The record stored for the child against `mReg1`. -/
def mRec1 : PlayerRec :=
  (lookupReg (create_player_state noCtrlCtx mRaw mReg1) "child").getD (newPlayer "child" "prov")

/-- The record stored for the child against `mReg2`. -/
def mRec2 : PlayerRec :=
  (lookupReg (create_player_state noCtrlCtx mRaw mReg2) "child").getD (newPlayer "child" "prov")

/-- The stale stored record of the C9 counterexample: a powered group
record for "p" that lists "p" itself as a child (a state a provider can
produce, since nothing validates group membership). -/
def cexOldP : PlayerRec := mkRec "p" true true 0 true ["p"]

/-- A powered group parent of "p" with distinctive queue state. -/
def cexB : PlayerRec :=
  { mkRec "B" true true 0 true ["p"] with
    state := .Paused, elapsed_time := 7, current_uri := "bu" }

/-- The registry before the C9 counterexample reconciliation. -/
def cexReg : Registry := [("p", cexOldP), ("B", cexB)]

/-- The raw (non-group) report for "p" being reconciled. -/
def cexRaw : RawPlayer := mkRaw "p" true true 30 false []

/-! ### Registry lemmas -/

theorem lookupReg_cons (a : String) (v : PlayerRec) (t : Registry) (x : String) :
    lookupReg ((a, v) :: t) x = if a = x then some v else lookupReg t x := by
  by_cases h : a = x <;> simp [lookupReg, List.find?_cons, h]

theorem updateReg_cons (a : String) (v : PlayerRec) (t : Registry) (pid : String)
    (f : PlayerRec → PlayerRec) :
    updateReg ((a, v) :: t) pid f =
      (if a = pid then (a, f v) else (a, v)) :: updateReg t pid f := by
  by_cases h : a = pid <;> simp [updateReg, h]

theorem lookupReg_update (players : Registry) (pid : String) (f : PlayerRec → PlayerRec)
    (x : String) :
    lookupReg (updateReg players pid f) x =
      if x = pid then (lookupReg players pid).map f else lookupReg players x := by
  induction players with
  | nil =>
    by_cases h : x = pid <;> simp [lookupReg, updateReg, h]
  | cons e t ih =>
    obtain ⟨a, v⟩ := e
    rw [updateReg_cons]
    by_cases hap : a = pid
    · subst hap
      rw [if_pos rfl]
      by_cases hax : a = x
      · subst hax
        simp [lookupReg_cons]
      · simp [lookupReg_cons, hax, Ne.symm hax, ih]
    · rw [if_neg hap]
      by_cases hax : a = x
      · subst hax
        simp [lookupReg_cons, hap]
      · simp [lookupReg_cons, hax, hap, ih]

theorem updateReg_updateReg (players : Registry) (pid : String)
    (f g : PlayerRec → PlayerRec) :
    updateReg (updateReg players pid f) pid g =
      updateReg players pid (fun v => g (f v)) := by
  induction players with
  | nil => rfl
  | cons e t ih =>
    obtain ⟨a, v⟩ := e
    rw [updateReg_cons, updateReg_cons, updateReg_cons, ih]
    by_cases hap : a = pid
    · simp [hap]
    · simp [hap]

theorem updateReg_id_on (players : Registry) (pid : String) (f : PlayerRec → PlayerRec)
    (h : ∀ e ∈ players, e.1 = pid → f e.2 = e.2) :
    updateReg players pid f = players := by
  induction players with
  | nil => rfl
  | cons e t ih =>
    obtain ⟨a, v⟩ := e
    have ht : updateReg t pid f = t := by
      apply ih
      intro e he
      exact h e (List.mem_cons_of_mem _ he)
    rw [updateReg_cons, ht]
    by_cases hap : a = pid
    · have hv : f v = v := h (a, v) (List.mem_cons_self _ _) hap
      rw [if_pos hap, hv]
    · rw [if_neg hap]

theorem updateReg_congr (players : Registry) (pid : String) (f g : PlayerRec → PlayerRec)
    (h : ∀ v, f v = g v) : updateReg players pid f = updateReg players pid g := by
  have : f = g := funext h
  rw [this]

theorem lookupReg_isSome_of_mem (players : Registry) (e : String × PlayerRec)
    (he : e ∈ players) : (lookupReg players e.1).isSome = true := by
  induction players with
  | nil => cases he
  | cons a t ih =>
    obtain ⟨k, v⟩ := a
    rcases List.mem_cons.mp he with h | h
    · subst h
      simp [lookupReg_cons]
    · rw [lookupReg_cons]
      by_cases hk : k = e.1
      · simp [hk]
      · rw [if_neg hk]
        exact ih h

theorem lookupReg_of_mem_nodup (players : Registry)
    (hnd : (players.map Prod.fst).Nodup) (e : String × PlayerRec) (he : e ∈ players) :
    lookupReg players e.1 = some e.2 := by
  induction players with
  | nil => cases he
  | cons a t ih =>
    obtain ⟨k, v⟩ := a
    simp only [List.map_cons, List.nodup_cons] at hnd
    rcases List.mem_cons.mp he with h | h
    · subst h
      simp [lookupReg_cons]
    · rw [lookupReg_cons]
      by_cases hk : k = e.1
      · exfalso
        apply hnd.1
        rw [hk]
        exact List.mem_map_of_mem Prod.fst h
      · rw [if_neg hk]
        exact ih hnd.2 h

theorem lookupReg_append_ne (l : Registry) (pid : String) (v : PlayerRec) (x : String)
    (hx : x ≠ pid) : lookupReg (l ++ [(pid, v)]) x = lookupReg l x := by
  induction l with
  | nil => simp [lookupReg_cons, Ne.symm hx, lookupReg]
  | cons e t ih =>
    obtain ⟨a, w⟩ := e
    rw [List.cons_append, lookupReg_cons, lookupReg_cons, ih]

theorem lookupReg_ensure_self (players : Registry) (pid provider_id : String) :
    lookupReg (ensureReg players pid provider_id) pid =
      some ((lookupReg players pid).getD (newPlayer pid provider_id)) := by
  unfold ensureReg
  cases h : lookupReg players pid with
  | some v => simp [h]
  | none =>
    simp only [h, Option.isSome_none, Bool.false_eq_true, if_false, Option.getD_none]
    induction players with
    | nil => simp [lookupReg_cons, lookupReg]
    | cons e t ih =>
      obtain ⟨a, w⟩ := e
      rw [lookupReg_cons] at h
      by_cases hap : a = pid
      · rw [if_pos hap] at h
        cases h
      · rw [if_neg hap] at h
        rw [List.cons_append, lookupReg_cons, if_neg hap]
        exact ih h

theorem lookupReg_ensure_ne (players : Registry) (pid provider_id : String) (x : String)
    (hx : x ≠ pid) :
    lookupReg (ensureReg players pid provider_id) x = lookupReg players x := by
  unfold ensureReg
  cases h : (lookupReg players pid).isSome with
  | true => simp
  | false =>
    simp only [Bool.false_eq_true, if_false]
    exact lookupReg_append_ne players pid _ x hx

theorem ensure_of_isSome (players : Registry) (pid provider_id : String)
    (h : (lookupReg players pid).isSome = true) :
    ensureReg players pid provider_id = players := by
  unfold ensureReg
  rw [if_pos h]

/-! ### C1, zero-volume scale-up -/

/-- C1, counterexample.  A group at stored volume 0 with one available
and powered child at volume 10: `volumeSet(group, 20)` does compute
`volume_dif_percent = 1 + 20/100 = 1.2`, but the recursive call's target
is `10 + 10 * 1.2 = 22`, not 12 as the claim states, and the resulting
provider command sets the child to 22. -/
theorem zero_volume_scale_up_cex :
    group_volume_set_targets zgGroup zgReg 20 = [("c", 22)] ∧
    cmd_volume_set noCtrlCtx zgReg 2 "g" 20 = .ok [Effect.provVolumeSet "c" 22] ∧
    group_volume_set_targets zgGroup zgReg 20 ≠ [("c", 12)] := by
  refine ⟨by decide, by decide, by decide⟩

/-- C1, amended: for a group player whose stored volume is 0 and that
has exactly one powered and available child at volume 10,
`volumeSet(group, 20)` computes `volume_dif_percent = 1 + 20/100 = 1.2`
and recurses on the child with target
`10 + 10 * volume_dif_percent = 22` (clamped and truncated to provider
volume 22). -/
theorem zero_volume_scale_up_amended :
    (1 + (20 : ℚ) / 100 = 12 / 10) ∧
    group_volume_set_targets zgGroup zgReg 20 = [("c", 10 + 10 * (1 + (20 : ℚ) / 100))] ∧
    cmd_volume_set noCtrlCtx zgReg 2 "g" 20 = .ok [Effect.provVolumeSet "c" 22] := by
  refine ⟨by decide, by decide, by decide⟩

/-! ### C2, commands on an unknown player id -/

/-- C2: every listed command, called with a player id the registry does
not know, raises instead of short-circuiting: `async_play_media`,
`async_cmd_power_on/off/toggle` and `async_cmd_volume_up/down` index
`self._players[player_id]` (KeyError), and `async_cmd_volume_set`
dereferences the `None` returned by `get_player` (AttributeError).  The
dead guard `if not player: return` in `async_play_media` documents the
intended no-op. -/
theorem unknown_player_commands_raise :
    cmd_play_media noCtrlCtx [] "ghost" 1 .Play = .error .keyError ∧
    cmd_power_on noCtrlCtx [] "ghost" = .error .keyError ∧
    cmd_power_off noCtrlCtx [] 1 "ghost" = .error .keyError ∧
    cmd_power_toggle noCtrlCtx [] 1 "ghost" = .error .keyError ∧
    cmd_volume_up noCtrlCtx [] 1 "ghost" = .error .keyError ∧
    cmd_volume_down noCtrlCtx [] 1 "ghost" = .error .keyError ∧
    cmd_volume_set noCtrlCtx [] 1 "ghost" 50 = .error .attributeError := by
  refine ⟨rfl, rfl, rfl, rfl, rfl, rfl, rfl⟩

/-! ### C10, volume commands on an unpowered player -/

/-- C10: for a registered player whose calculated record is unpowered,
`volumeSet` returns immediately with no provider command, no control
update and no recursion into group children (the registry itself is
never written by the volume commands); `volumeUp` and `volumeDown`
delegate to `volumeSet` and are equally inert. -/
theorem volume_set_unpowered_noop (ctx : Ctx) (players : Registry) (fuel : Nat)
    (pid : String) (p : PlayerRec) (v : ℚ)
    (hp : lookupReg players pid = some p) (hpow : p.powered = false) :
    cmd_volume_set ctx players fuel pid v = .ok [] ∧
    cmd_volume_up ctx players fuel pid = .ok [] ∧
    cmd_volume_down ctx players fuel pid = .ok [] := by
  have hset : ∀ q : ℚ, cmd_volume_set ctx players fuel pid q = .ok [] := by
    intro q
    cases fuel with
    | zero => rfl
    | succ n =>
      unfold cmd_volume_set
      rw [hp]
      simp [hpow]
  refine ⟨hset v, ?_, ?_⟩
  · unfold cmd_volume_up
    rw [hp]
    exact hset _
  · unfold cmd_volume_down
    rw [hp]
    exact hset _

/-- C10, witness: an unpowered player at volume 40. -/
theorem volume_set_unpowered_noop_witness :
    cmd_volume_set noCtrlCtx [("p", mkRec "p" true false 40 false [])] 3 "p" 55 = .ok [] ∧
    cmd_volume_up noCtrlCtx [("p", mkRec "p" true false 40 false [])] 3 "p" = .ok [] ∧
    cmd_volume_down noCtrlCtx [("p", mkRec "p" true false 40 false [])] 3 "p" = .ok [] :=
  volume_set_unpowered_noop noCtrlCtx [("p", mkRec "p" true false 40 false [])] 3 "p"
    (mkRec "p" true false 40 false []) 55 (by decide) (by decide)

/-! ### C8, change suppression in the notifier -/

/-- C8: for an available player, an elapsed-time-only change writes the
timestamp but does not emit `PlayerChanged`, while a change to any other
field (except configuration entries) emits it; a configuration-entries
change is fully suppressed; and every change on an unavailable player is
suppressed unless the changed field is the availability itself. -/
theorem player_updated_suppression (ctx : Ctx) (players : Registry) (pid : String)
    (p : PlayerRec) (hp : lookupReg players pid = some p) :
    (p.available = true →
      (player_updated ctx players pid "elapsed_time").touched = true ∧
      (player_updated ctx players pid "elapsed_time").emitted = false) ∧
    (p.available = true → ∀ changed : String, changed ≠ "elapsed_time" →
      changed ≠ "config_entries" →
      (player_updated ctx players pid changed).emitted = true) ∧
    ((player_updated ctx players pid "config_entries").touched = false ∧
      (player_updated ctx players pid "config_entries").emitted = false) ∧
    (p.available = false → ∀ changed : String, changed ≠ "available" →
      player_updated ctx players pid changed = ⟨false, false, [], false⟩) := by
  refine ⟨?_, ?_, ?_, ?_⟩
  · intro hav
    unfold player_updated
    rw [hp]
    simp [hav]
  · intro hav changed hce het
    unfold player_updated
    rw [hp]
    simp [hav, hce, het]
  · unfold player_updated
    rw [hp]
    by_cases hav : p.available = true
    · simp [hav]
    · simp at hav
      simp [hav]
  · intro hav changed hch
    unfold player_updated
    rw [hp]
    simp [hav, hch]

/-- C8, witness: an available non-group player. -/
theorem player_updated_suppression_witness :
    (player_updated noCtrlCtx [("p", mkRec "p" true true 40 false [])] "p"
        "elapsed_time").emitted = false ∧
    (player_updated noCtrlCtx [("p", mkRec "p" true true 40 false [])] "p"
        "state").emitted = true := by
  have h := player_updated_suppression noCtrlCtx
    [("p", mkRec "p" true true 40 false [])] "p" (mkRec "p" true true 40 false [])
    (by decide)
  exact ⟨(h.1 (by decide)).2, h.2.1 (by decide) "state" (by decide) (by decide)⟩

/-! ### C5, queue-insertion policy of playMedia -/

/-- C5: with a registered player, a resolvable provider and a queue for
the player's active queue owner, `playMedia` picks the queue operation
exactly as claimed: `Replace`, or `Play`/`Next` with more than ten
expanded items, loads; `Play` with at most ten inserts at the head;
`Next` with at most ten inserts after the current item; `Add` appends. -/
theorem play_media_queue_policy (ctx : Ctx) (players : Registry) (pid : String)
    (p : PlayerRec) (num_items : Nat) (queue_opt : QueueOption)
    (hp : lookupReg players pid = some p)
    (hprov : ctx.providers p.provider_id = true)
    (hq : (ctx.queues p.active_queue).isSome = true) :
    (queue_opt = .Replace ∨ (10 < num_items ∧ (queue_opt = .Play ∨ queue_opt = .Next)) →
      (cmd_play_media ctx players pid num_items queue_opt).map (fun x => x.2) =
        .ok .load) ∧
    (queue_opt = .Play → num_items ≤ 10 →
      (cmd_play_media ctx players pid num_items queue_opt).map (fun x => x.2) =
        .ok (.insertAt 0)) ∧
    (queue_opt = .Next → num_items ≤ 10 →
      (cmd_play_media ctx players pid num_items queue_opt).map (fun x => x.2) =
        .ok (.insertAt 1)) ∧
    (queue_opt = .Add →
      (cmd_play_media ctx players pid num_items queue_opt).map (fun x => x.2) =
        .ok .append) := by
  have hon : ∃ eff, cmd_power_on ctx players pid = .ok eff := by
    unfold cmd_power_on
    simp [hp, hprov]
    cases (ctx.config pid).power_control with
    | none => exact ⟨_, rfl⟩
    | some cid =>
      dsimp only
      cases ctx.controls cid with
      | none => exact ⟨_, rfl⟩
      | some c => exact ⟨_, rfl⟩
  obtain ⟨eff, heff⟩ := hon
  obtain ⟨q, hqq⟩ := Option.isSome_iff_exists.mp hq
  have hmain : cmd_play_media ctx players pid num_items queue_opt =
      .ok (eff, queue_action_for queue_opt num_items) := by
    unfold cmd_play_media
    simp only [hp, heff, hqq]
  refine ⟨?_, ?_, ?_, ?_⟩
  · intro h
    rw [hmain]
    unfold queue_action_for
    rw [if_pos h]
    rfl
  · intro hopt hle
    subst hopt
    rw [hmain]
    have hcond : ¬ (QueueOption.Play = QueueOption.Replace ∨
        (10 < num_items ∧
          (QueueOption.Play = QueueOption.Play ∨ QueueOption.Play = QueueOption.Next))) := by
      rintro (hc | ⟨hn, _⟩)
      · cases hc
      · exact absurd hn (Nat.not_lt.mpr hle)
    unfold queue_action_for
    rw [if_neg hcond]
    rfl
  · intro hopt hle
    subst hopt
    rw [hmain]
    have hcond : ¬ (QueueOption.Next = QueueOption.Replace ∨
        (10 < num_items ∧
          (QueueOption.Next = QueueOption.Play ∨ QueueOption.Next = QueueOption.Next))) := by
      rintro (hc | ⟨hn, _⟩)
      · cases hc
      · exact absurd hn (Nat.not_lt.mpr hle)
    unfold queue_action_for
    rw [if_neg hcond]
    rfl
  · intro hopt
    subst hopt
    rw [hmain]
    have hcond : ¬ (QueueOption.Add = QueueOption.Replace ∨
        (10 < num_items ∧
          (QueueOption.Add = QueueOption.Play ∨ QueueOption.Add = QueueOption.Next))) := by
      rintro (hc | ⟨_, hc | hc⟩) <;> cases hc
    unfold queue_action_for
    rw [if_neg hcond]
    rfl

/-- C5, witness: fifteen expanded tracks with `Play` load (replace),
five insert at the head. -/
theorem play_media_queue_policy_witness :
    (cmd_play_media qCtx [("p", mkRec "p" true true 50 false [])] "p" 15 .Play).map
        (fun x => x.2) = .ok .load ∧
    (cmd_play_media qCtx [("p", mkRec "p" true true 50 false [])] "p" 5 .Play).map
        (fun x => x.2) = .ok (.insertAt 0) := by
  constructor
  · exact (play_media_queue_policy qCtx [("p", mkRec "p" true true 50 false [])] "p"
      (mkRec "p" true true 50 false []) 15 .Play (by decide) (by decide) (by decide)).1
      (Or.inr ⟨by decide, Or.inl rfl⟩)
  · exact (play_media_queue_policy qCtx [("p", mkRec "p" true true 50 false [])] "p"
      (mkRec "p" true true 50 false []) 5 .Play (by decide) (by decide) (by decide)).2.1
      rfl (by decide)

/-! ### C7, proportional group volume fan-out -/

theorem truncInt_intCast (n : Int) : truncInt (n : ℚ) = n := by
  unfold truncInt
  by_cases h : (n : ℚ) < 0
  · rw [if_pos h, show -(n : ℚ) = ((-n : Int) : ℚ) by push_cast; ring,
      Int.floor_intCast]
    ring
  · rw [if_neg h, Int.floor_intCast]

theorem clampVol_of_bounds (n : Int) (h0 : 0 ≤ n) (h100 : n ≤ 100) : clampVol n = n := by
  unfold clampVol
  rw [if_neg (by omega), if_neg (by omega)]

/-- C7: for a powered group player with no configured volume control and
a nonzero stored volume `cur`, `volumeSet(group, new)` computes
`volume_dif_percent = (new - cur) / cur` and recurses on exactly the
registered, available and powered children, each with target
`cur_child + cur_child * volume_dif_percent`. -/
theorem volume_set_group_fanout (ctx : Ctx) (players : Registry) (fuel : Nat)
    (gid : String) (g : PlayerRec) (new : Int)
    (hg : lookupReg players gid = some g)
    (hpow : g.powered = true)
    (hgrp : g.is_group_player = true)
    (hvc : (ctx.config gid).volume_control = none)
    (hcur : g.volume_level ≠ 0)
    (h0 : 0 ≤ new) (h100 : new ≤ 100) :
    cmd_volume_set ctx players (fuel + 1) gid ((new : Int) : ℚ) =
      g.group_childs.foldlM
        (fun acc cid =>
          match lookupReg players cid with
          | some child =>
            if child.available && child.powered then
              (cmd_volume_set ctx players fuel cid
                  (child.volume_level +
                    child.volume_level *
                      (((new : ℚ) - g.volume_level) / g.volume_level))).map
                (fun e => acc ++ e)
            else .ok acc
          | none => .ok acc)
        [] := by
  conv_lhs => rw [cmd_volume_set]
  simp only [hg, hpow, hvc, hgrp, truncInt_intCast, clampVol_of_bounds new h0 h100,
    Bool.true_eq_false, if_false, if_true, if_neg hcur]

/-- C7, witness: `volumeSet(group, 75)` on the fan-out scenario yields
`volume_dif_percent = 0.5` and provider commands setting the children to
60 and 90. -/
theorem volume_set_group_fanout_witness :
    cmd_volume_set noCtrlCtx fanReg (1 + 1) "g" ((75 : Int) : ℚ) =
      .ok [Effect.provVolumeSet "c1" 60, Effect.provVolumeSet "c2" 90] := by
  rw [volume_set_group_fanout noCtrlCtx fanReg 1 "g" (mkRec "g" true true 50 true ["c1", "c2"]) 75
      (by decide) (by decide) (by decide) (by decide) (by decide) (by decide) (by decide)]
  decide

/-! ### Observing the reconciled record -/

theorem lookupReg_create (ctx : Ctx) (raw : RawPlayer) (players : Registry) :
    lookupReg (create_player_state ctx raw players) raw.player_id =
      some (reconcile_result ctx raw players) := by
  unfold create_player_state reconcile_result
  rw [lookupReg_update, if_pos rfl, lookupReg_update, if_pos rfl, lookupReg_ensure_self]
  rfl

theorem reconcile_rest_volume (ctx : Ctx) (raw : RawPlayer) (aq : String) (vol : ℚ)
    (st : PlayerRec) : (reconcile_rest ctx raw aq vol st).volume_level = vol := rfl

theorem reconcile_rest_active_queue (ctx : Ctx) (raw : RawPlayer) (aq : String) (vol : ℚ)
    (st : PlayerRec) : (reconcile_rest ctx raw aq vol st).active_queue = aq := rfl

theorem reconcile_rest_available (ctx : Ctx) (raw : RawPlayer) (aq : String) (vol : ℚ)
    (st : PlayerRec) : (reconcile_rest ctx raw aq vol st).available = st.available := rfl

theorem reconcile_rest_powered (ctx : Ctx) (raw : RawPlayer) (aq : String) (vol : ℚ)
    (st : PlayerRec) : (reconcile_rest ctx raw aq vol st).powered = st.powered := rfl

theorem reconcile_main_available (ctx : Ctx) (raw : RawPlayer) (players0 : Registry)
    (aq : String) (st : PlayerRec) :
    (reconcile_main ctx raw players0 aq st).available =
      (if (ctx.config raw.player_id).enabled = false then false else raw.available) := rfl

theorem reconcile_main_powered (ctx : Ctx) (raw : RawPlayer) (players0 : Registry)
    (aq : String) (st : PlayerRec) :
    (reconcile_main ctx raw players0 aq st).powered = get_player_power_state ctx raw := rfl

/-! ### C3, calculated power state -/

/-- C3, counterexample: a player whose provider reports it available and
powered, but whose per-player enabled flag is off.  Its effective
availability is false, yet reconciliation leaves the effective power
true — `__get_player_power_state` checks the raw availability only, so
the claim's "effective availability is false … power is false" fails. -/
theorem power_state_disabled_cex :
    (lookupReg (create_player_state disabledCtx (mkRaw "p" true true 30 false []) []) "p").map
      (fun r => (r.available, r.powered)) = some (false, true) := by decide

/-- C3, amended: the reconciled power is false when the raw availability
is false (not the effective availability: a config-disabled player keeps
its control- or provider-derived power); else a configured and
resolvable power control's boolean state; else the raw power flag.  The
effective availability itself is raw availability AND the enabled
flag. -/
theorem power_state_amended (ctx : Ctx) (raw : RawPlayer) (players : Registry)
    (r : PlayerRec)
    (hr : lookupReg (create_player_state ctx raw players) raw.player_id = some r) :
    r.available = ((ctx.config raw.player_id).enabled && raw.available) ∧
    r.powered = (if raw.available = false then false
      else
        match (ctx.config raw.player_id).power_control with
        | some cid =>
          match ctx.controls cid with
          | some c => c.toBool
          | none => raw.powered
        | none => raw.powered) := by
  rw [lookupReg_create] at hr
  obtain rfl : r = reconcile_result ctx raw players := (Option.some.inj hr).symm
  constructor
  · unfold reconcile_result
    rw [reconcile_rest_available, reconcile_main_available]
    cases h : (ctx.config raw.player_id).enabled <;> simp [h]
  · unfold reconcile_result
    rw [reconcile_rest_powered, reconcile_main_powered]
    rfl

/-- C3, witness: the amended rule evaluated on the disabled player. -/
theorem power_state_amended_witness :
    c3rec.available = ((disabledCtx.config c3raw.player_id).enabled && c3raw.available) ∧
    c3rec.powered = (if c3raw.available = false then false
      else
        match (disabledCtx.config c3raw.player_id).power_control with
        | some cid =>
          match disabledCtx.controls cid with
          | some c => c.toBool
          | none => c3raw.powered
        | none => c3raw.powered) :=
  power_state_amended disabledCtx c3raw [] c3rec (by decide)

/-! ### C4, group volume aggregation -/

theorem filterMap_congr_mem {α β : Type} (l : List α) (f g : α → Option β)
    (h : ∀ a ∈ l, f a = g a) : l.filterMap f = l.filterMap g := by
  induction l with
  | nil => rfl
  | cons a t ih =>
    rw [List.filterMap_cons, List.filterMap_cons,
      h a (List.mem_cons_self _ _), ih fun b hb => h b (List.mem_cons_of_mem _ hb)]

theorem find?_congr_mem {α : Type} (l : List α) (p q : α → Bool)
    (h : ∀ a ∈ l, p a = q a) : l.find? p = l.find? q := by
  induction l with
  | nil => rfl
  | cons a t ih =>
    rw [List.find?_cons, List.find?_cons, h a (List.mem_cons_self _ _)]
    cases q a with
    | true => rfl
    | false => exact ih fun b hb => h b (List.mem_cons_of_mem _ hb)

theorem activeChildVolumes_cons (players : Registry) (c : String) (t : List String) :
    activeChildVolumes players (c :: t) =
      (match (lookupReg players c).bind (fun child =>
          if child.available && child.powered then some child.volume_level else none) with
        | none => activeChildVolumes players t
        | some v => v :: activeChildVolumes players t) := by
  unfold activeChildVolumes
  rw [List.filterMap_cons]
  cases (lookupReg players c).bind (fun child =>
      if child.available && child.powered then some child.volume_level else none) with
  | none => rfl
  | some v => rfl

theorem volume_fold_eq (players : Registry) (childs : List String) (a : ℚ) (n : Nat) :
    childs.foldl
      (fun (acc : ℚ × Nat) cid =>
        match lookupReg players cid with
        | some child =>
          if child.available && child.powered then (acc.1 + child.volume_level, acc.2 + 1)
          else acc
        | none => acc) (a, n) =
    (a + (activeChildVolumes players childs).sum,
      n + (activeChildVolumes players childs).length) := by
  induction childs generalizing a n with
  | nil => simp [activeChildVolumes]
  | cons c t ih =>
    rw [List.foldl_cons, activeChildVolumes_cons]
    cases hc : lookupReg players c with
    | none =>
      dsimp only
      exact ih a n
    | some child =>
      cases hav : child.available && child.powered with
      | false =>
        simp only [Option.bind, hav, Bool.false_eq_true, if_false]
        exact ih a n
      | true =>
        simp only [Option.bind, hav, if_true]
        rw [ih]
        simp only [List.sum_cons, List.length_cons, Prod.mk.injEq]
        constructor
        · ring
        · omega

/-- C4: for an available group player with no configured volume control
whose child list does not (degenerately) contain the group itself, the
reconciled volume is the arithmetic mean of the stored volumes of the
children that are currently both available and powered, and 0 when no
child qualifies; an unavailable player's reconciled volume is 0. -/
theorem group_volume_mean (ctx : Ctx) (raw : RawPlayer) (players : Registry) (r : PlayerRec)
    (hgrp : raw.is_group_player = true)
    (hvc : (ctx.config raw.player_id).volume_control = none)
    (hself : raw.player_id ∉ raw.group_childs)
    (hr : lookupReg (create_player_state ctx raw players) raw.player_id = some r) :
    (raw.available = true →
      r.volume_level =
        (if (activeChildVolumes players raw.group_childs).length = 0 then 0
         else (activeChildVolumes players raw.group_childs).sum /
           ((activeChildVolumes players raw.group_childs).length : ℚ))) ∧
    (raw.available = false → r.volume_level = 0) := by
  rw [lookupReg_create] at hr
  obtain rfl : r = reconcile_result ctx raw players := (Option.some.inj hr).symm
  have hACV : activeChildVolumes
      (updateReg (ensureReg players raw.player_id raw.provider_id) raw.player_id
        (reconcile_main ctx raw (ensureReg players raw.player_id raw.provider_id)
          (get_player_active_queue (ensureReg players raw.player_id raw.provider_id) raw
            (get_player_group_parents (ensureReg players raw.player_id raw.provider_id) raw))))
      raw.group_childs = activeChildVolumes players raw.group_childs := by
    apply filterMap_congr_mem
    intro cid hcid
    have hne : cid ≠ raw.player_id := fun h => hself (h ▸ hcid)
    rw [lookupReg_update, if_neg hne, lookupReg_ensure_ne players raw.player_id _ cid hne]
  have hvol : (reconcile_result ctx raw players).volume_level =
      get_player_volume_level ctx
        (updateReg (ensureReg players raw.player_id raw.provider_id) raw.player_id
          (reconcile_main ctx raw (ensureReg players raw.player_id raw.provider_id)
            (get_player_active_queue (ensureReg players raw.player_id raw.provider_id) raw
              (get_player_group_parents (ensureReg players raw.player_id raw.provider_id) raw))))
        raw := by
    unfold reconcile_result
    rw [reconcile_rest_volume]
  constructor
  · intro hav
    rw [hvol]
    unfold get_player_volume_level
    rw [if_neg (by rw [hav]; exact fun h => by cases h), hvc]
    dsimp only [Option.none_bind]
    rw [if_pos hgrp, volume_fold_eq, hACV]
    simp only [zero_add]
    by_cases hlen : (activeChildVolumes players raw.group_childs).length = 0
    · rw [if_neg (by omega), if_pos hlen]
      rw [List.length_eq_zero.mp hlen]
      rfl
    · rw [if_pos hlen, if_neg hlen]
  · intro hav
    rw [hvol]
    unfold get_player_volume_level
    rw [if_pos hav]

/-- C4, witness: the mean over the two powered and available children is
30; the unpowered child is excluded. -/
theorem group_volume_mean_witness :
    c4raw.available = true ∧ c4rec.volume_level = 30 := by
  refine ⟨rfl, ?_⟩
  have h := (group_volume_mean noCtrlCtx c4raw c4reg c4rec rfl rfl (by decide)
    (by decide)).1 rfl
  rw [h]
  decide

/-! ### C6, active-queue resolution -/

theorem get_player_active_queue_eq (players : Registry) (raw : RawPlayer)
    (gps : List String) :
    get_player_active_queue players raw gps =
      (gps.find?
        (fun gid => ((lookupReg players gid).map (fun g => g.powered)).getD false)).getD
        raw.player_id := by
  unfold get_player_active_queue
  cases gps.find? (fun gid => ((lookupReg players gid).map (fun g => g.powered)).getD false) with
  | none => rfl
  | some gid => rfl

theorem group_parents_of_nongroup (players : Registry) (raw : RawPlayer)
    (hng : raw.is_group_player = false) :
    get_player_group_parents players raw =
      (players.filter (fun e => parent_test raw.player_id e.2)).map (fun e => e.1) := by
  unfold get_player_group_parents
  rw [hng]
  simp

theorem group_parents_ensure (players : Registry) (raw : RawPlayer) :
    get_player_group_parents (ensureReg players raw.player_id raw.provider_id) raw =
      get_player_group_parents players raw := by
  unfold ensureReg
  cases h : (lookupReg players raw.player_id).isSome with
  | true => simp
  | false =>
    simp only [Bool.false_eq_true, if_false]
    cases hg : raw.is_group_player with
    | true =>
      unfold get_player_group_parents
      rw [hg]
      simp
    | false =>
      rw [group_parents_of_nongroup _ raw hg, group_parents_of_nongroup _ raw hg,
        List.filter_append, List.map_append]
      have hone : List.filter (fun e => parent_test raw.player_id e.2)
          [(raw.player_id, newPlayer raw.player_id raw.provider_id)] = [] := rfl
      rw [hone, List.map_nil, List.append_nil]

/-- C6: for a non-group player, the reconciled `active_queue` is the id
of the first stored group player, in registry iteration order, that
lists the player among its children and is currently powered; when no
such powered parent exists it is the player's own id.  It is recomputed
from the current registry on every reconciliation. -/
theorem active_queue_first_powered_parent (ctx : Ctx) (raw : RawPlayer)
    (players : Registry) (r : PlayerRec) (hng : raw.is_group_player = false)
    (hr : lookupReg (create_player_state ctx raw players) raw.player_id = some r) :
    r.active_queue =
      (((players.filter (fun e => parent_test raw.player_id e.2)).map (fun e => e.1)).find?
          (fun gid => ((lookupReg players gid).map (fun g => g.powered)).getD false)).getD
        raw.player_id := by
  rw [lookupReg_create] at hr
  obtain rfl : r = reconcile_result ctx raw players := (Option.some.inj hr).symm
  unfold reconcile_result
  rw [reconcile_rest_active_queue, get_player_active_queue_eq, group_parents_ensure,
    group_parents_of_nongroup players raw hng]
  congr 1
  apply find?_congr_mem
  intro gid hgid
  by_cases hpid : (lookupReg players raw.player_id).isSome = true
  · rw [ensure_of_isSome players raw.player_id raw.provider_id hpid]
  · have hgidne : gid ≠ raw.player_id := by
      intro heq
      subst heq
      obtain ⟨e, he, hee⟩ := List.mem_map.mp hgid
      obtain ⟨hemem, _⟩ := List.mem_filter.mp he
      apply hpid
      rw [← hee]
      exact lookupReg_isSome_of_mem players e hemem
    rw [lookupReg_ensure_ne players raw.player_id raw.provider_id gid hgidne]

/-- C6, witness: with A unpowered and B powered the child resolves
`active_queue = B`; after the power swap the next reconciliation
resolves `active_queue = A`. -/
theorem active_queue_first_powered_parent_witness :
    mRec1.active_queue = "B" ∧ mRec2.active_queue = "A" := by
  constructor
  · rw [active_queue_first_powered_parent noCtrlCtx mRaw mReg1 mRec1 rfl (by decide)]
    decide
  · rw [active_queue_first_powered_parent noCtrlCtx mRaw mReg2 mRec2 rfl (by decide)]
    decide

/-! ### C9, idempotence of reconciliation -/

theorem parent_test_rest (ctx : Ctx) (raw : RawPlayer) (aq : String) (vol : ℚ)
    (st : PlayerRec) (pid : String) :
    parent_test pid (reconcile_rest ctx raw aq vol st) =
      (raw.is_group_player && raw.group_childs.contains pid) := rfl

theorem create_player_state_eq (ctx : Ctx) (raw : RawPlayer) (players : Registry) :
    create_player_state ctx raw players =
      updateReg (ensureReg players raw.player_id raw.provider_id) raw.player_id
        (fun v =>
          reconcile_rest ctx raw
            (get_player_active_queue (ensureReg players raw.player_id raw.provider_id) raw
              (get_player_group_parents (ensureReg players raw.player_id raw.provider_id) raw))
            (get_player_volume_level ctx
              (updateReg (ensureReg players raw.player_id raw.provider_id) raw.player_id
                (reconcile_main ctx raw (ensureReg players raw.player_id raw.provider_id)
                  (get_player_active_queue (ensureReg players raw.player_id raw.provider_id) raw
                    (get_player_group_parents
                      (ensureReg players raw.player_id raw.provider_id) raw))))
              raw)
            (reconcile_main ctx raw (ensureReg players raw.player_id raw.provider_id)
              (get_player_active_queue (ensureReg players raw.player_id raw.provider_id) raw
                (get_player_group_parents (ensureReg players raw.player_id raw.provider_id) raw))
              v)) := by
  unfold create_player_state
  rw [updateReg_updateReg]

theorem filter_map_fst_update (l : Registry) (pid : String) (f : PlayerRec → PlayerRec)
    (test : PlayerRec → Bool)
    (h1 : ∀ e ∈ l, e.1 = pid → test e.2 = false)
    (h2 : ∀ v, test (f v) = false) :
    ((updateReg l pid f).filter (fun e => test e.2)).map (fun e => e.1) =
      (l.filter (fun e => test e.2)).map (fun e => e.1) := by
  induction l with
  | nil => rfl
  | cons e t ih =>
    obtain ⟨a, v⟩ := e
    have ht := ih (fun e he hp => h1 e (List.mem_cons_of_mem _ he) hp)
    rw [updateReg_cons]
    by_cases hap : a = pid
    · rw [if_pos hap]
      have hv : test v = false := h1 (a, v) (List.mem_cons_self _ _) hap
      rw [List.filter_cons, List.filter_cons]
      simp only [h2 v, hv, Bool.false_eq_true, if_false]
      exact ht
    · rw [if_neg hap, List.filter_cons, List.filter_cons]
      cases hv : test v with
      | false =>
        simp only [hv, Bool.false_eq_true, if_false]
        exact ht
      | true =>
        simp only [hv, if_true]
        rw [List.map_cons, List.map_cons, ht]

theorem group_parents_update_eq (l : Registry) (pid : String) (f : PlayerRec → PlayerRec)
    (raw : RawPlayer)
    (h1 : ∀ e ∈ l, e.1 = pid → parent_test raw.player_id e.2 = false)
    (h2 : ∀ v, parent_test raw.player_id (f v) = false) :
    get_player_group_parents (updateReg l pid f) raw = get_player_group_parents l raw := by
  cases hg : raw.is_group_player with
  | true =>
    unfold get_player_group_parents
    rw [hg]
    simp
  | false =>
    rw [group_parents_of_nongroup _ raw hg, group_parents_of_nongroup _ raw hg]
    exact filter_map_fst_update l pid f (fun st => parent_test raw.player_id st) h1 h2

theorem mem_group_parents (players : Registry) (raw : RawPlayer) (gid : String)
    (h : gid ∈ get_player_group_parents players raw) :
    ∃ e ∈ players, e.1 = gid ∧ parent_test raw.player_id e.2 = true := by
  unfold get_player_group_parents at h
  by_cases hg : raw.is_group_player = true
  · rw [if_pos hg] at h
    cases h
  · rw [if_neg hg] at h
    obtain ⟨e, he, hee⟩ := List.mem_map.mp h
    obtain ⟨hemem, ht⟩ := List.mem_filter.mp he
    exact ⟨e, hemem, hee, ht⟩

theorem reconcile_main_congr (ctx : Ctx) (raw : RawPlayer) (A B : Registry) (aq : String)
    (h : aq = raw.player_id ∨ lookupReg A aq = lookupReg B aq) (st : PlayerRec) :
    reconcile_main ctx raw A aq st = reconcile_main ctx raw B aq st := by
  rcases h with h | h
  · subst h
    unfold reconcile_main get_player_state_calc
    simp
  · unfold reconcile_main get_player_state_calc
    rw [h]

theorem volume_level_congr (ctx : Ctx) (A B : Registry) (raw : RawPlayer)
    (h : raw.is_group_player = true →
      ∀ cid ∈ raw.group_childs, lookupReg A cid = lookupReg B cid) :
    get_player_volume_level ctx A raw = get_player_volume_level ctx B raw := by
  unfold get_player_volume_level
  by_cases hav : raw.available = false
  · rw [if_pos hav, if_pos hav]
  · rw [if_neg hav, if_neg hav]
    cases hc : (ctx.config raw.player_id).volume_control.bind ctx.controls with
    | some c => rfl
    | none =>
      cases hg : raw.is_group_player with
      | false => simp
      | true =>
        simp only [if_true]
        have hACV : activeChildVolumes A raw.group_childs =
            activeChildVolumes B raw.group_childs := by
          apply filterMap_congr_mem
          intro cid hcid
          rw [h hg cid hcid]
        rw [volume_fold_eq, volume_fold_eq, hACV]

theorem rest_main_idem (ctx : Ctx) (raw : RawPlayer) (players0 : Registry) (aq : String)
    (vol : ℚ) (v : PlayerRec) :
    reconcile_rest ctx raw aq vol (reconcile_main ctx raw players0 aq
      (reconcile_rest ctx raw aq vol (reconcile_main ctx raw players0 aq v))) =
    reconcile_rest ctx raw aq vol (reconcile_main ctx raw players0 aq v) := by
  unfold reconcile_rest reconcile_main
  cases hq : ctx.queues aq <;> rfl

theorem step_idem_core (ctx : Ctx) (raw : RawPlayer) (P0 : Registry)
    (htest : ∀ e ∈ P0, e.1 = raw.player_id → parent_test raw.player_id e.2 = false)
    (hrawself : raw.is_group_player = true → raw.player_id ∉ raw.group_childs)
    (hsome : (lookupReg P0 raw.player_id).isSome = true) :
    create_player_state ctx raw
      (updateReg P0 raw.player_id (fun v =>
        reconcile_rest ctx raw
          (get_player_active_queue P0 raw (get_player_group_parents P0 raw))
          (get_player_volume_level ctx
            (updateReg P0 raw.player_id
              (reconcile_main ctx raw P0
                (get_player_active_queue P0 raw (get_player_group_parents P0 raw))))
            raw)
          (reconcile_main ctx raw P0
            (get_player_active_queue P0 raw (get_player_group_parents P0 raw)) v))) =
      updateReg P0 raw.player_id (fun v =>
        reconcile_rest ctx raw
          (get_player_active_queue P0 raw (get_player_group_parents P0 raw))
          (get_player_volume_level ctx
            (updateReg P0 raw.player_id
              (reconcile_main ctx raw P0
                (get_player_active_queue P0 raw (get_player_group_parents P0 raw))))
            raw)
          (reconcile_main ctx raw P0
            (get_player_active_queue P0 raw (get_player_group_parents P0 raw)) v)) := by
  obtain ⟨old, hOld⟩ := Option.isSome_iff_exists.mp hsome
  set gps := get_player_group_parents P0 raw with hgps
  set aq := get_player_active_queue P0 raw gps with haq
  set u1 := reconcile_main ctx raw P0 aq with hu1
  set P1 := updateReg P0 raw.player_id u1 with hP1
  set vol := get_player_volume_level ctx P1 raw with hvol
  set G := (fun v => reconcile_rest ctx raw aq vol (u1 v)) with hG
  set S := updateReg P0 raw.player_id G with hS
  have hGtest : ∀ v, parent_test raw.player_id (G v) = false := by
    intro v
    rw [hG]
    show (raw.is_group_player && raw.group_childs.contains raw.player_id) = false
    cases hg : raw.is_group_player with
    | false => rfl
    | true => simpa using hrawself hg
  have hne : ∀ gid ∈ gps, gid ≠ raw.player_id := by
    intro gid hgid heq
    rw [hgps] at hgid
    obtain ⟨e, he, hkey, ht⟩ := mem_group_parents P0 raw gid hgid
    rw [heq] at hkey
    rw [htest e he hkey] at ht
    cases ht
  have hSlook : ∀ x, lookupReg S x =
      if x = raw.player_id then some (G old) else lookupReg P0 x := by
    intro x
    rw [hS, lookupReg_update]
    by_cases hx : x = raw.player_id
    · rw [if_pos hx, if_pos hx, hOld]
      rfl
    · rw [if_neg hx, if_neg hx]
  have hSsome : (lookupReg S raw.player_id).isSome = true := by
    rw [hSlook, if_pos rfl]
    rfl
  have hgpsS : get_player_group_parents S raw = gps := by
    rw [hS, hgps]
    exact group_parents_update_eq P0 raw.player_id G raw htest hGtest
  have haqS : get_player_active_queue S raw gps = aq := by
    rw [haq, get_player_active_queue_eq, get_player_active_queue_eq]
    congr 1
    apply find?_congr_mem
    intro gid hgid
    rw [hSlook, if_neg (hne gid hgid)]
  have haqcase : aq = raw.player_id ∨ lookupReg S aq = lookupReg P0 aq := by
    rcases hfind : gps.find?
        (fun gid => ((lookupReg P0 gid).map (fun g => g.powered)).getD false) with _ | gid
    · left
      rw [haq, get_player_active_queue_eq, hfind]
      rfl
    · right
      have hmem : gid ∈ gps := List.mem_of_find?_eq_some hfind
      have haqgid : aq = gid := by
        rw [haq, get_player_active_queue_eq, hfind]
        rfl
      rw [haqgid, hSlook, if_neg (hne gid hmem)]
  have hmainS : ∀ st, reconcile_main ctx raw S aq st = u1 st := by
    intro st
    rw [hu1]
    exact reconcile_main_congr ctx raw S P0 aq haqcase st
  have hvolS : get_player_volume_level ctx
      (updateReg S raw.player_id (reconcile_main ctx raw S aq)) raw = vol := by
    rw [hvol]
    apply volume_level_congr
    intro hg cid hcid
    have hcne : cid ≠ raw.player_id := fun hc => hrawself hg (hc ▸ hcid)
    rw [lookupReg_update, if_neg hcne, hSlook, if_neg hcne, hP1, lookupReg_update,
      if_neg hcne]
  rw [create_player_state_eq ctx raw S,
    ensure_of_isSome S raw.player_id raw.provider_id hSsome, hgpsS, haqS]
  have houter : ∀ v,
      reconcile_rest ctx raw aq
        (get_player_volume_level ctx
          (updateReg S raw.player_id (reconcile_main ctx raw S aq)) raw)
        (reconcile_main ctx raw S aq v) = G v := by
    intro v
    rw [hvolS, hmainS v, hG]
  rw [updateReg_congr S raw.player_id _ G houter, hS, updateReg_updateReg]
  apply updateReg_congr
  intro v
  rw [hG, hu1]
  exact rest_main_idem ctx raw P0 aq vol v

/-- C9, amended: reconciliation is idempotent for every raw record and
registry without self-referential group membership — the player's prior
stored record must not be a group record listing the player among its
own children, and a raw group record must not list the player among its
own children.  (The counterexample below shows the claim fails without
this proviso.)  Applying the step twice then returns the registry of the
first application unchanged; the embedding carries no timestamp, which
is the one field the claim already excludes. -/
theorem reconcile_idempotent_amended (ctx : Ctx) (raw : RawPlayer) (players : Registry)
    (hnd : (players.map Prod.fst).Nodup)
    (hold : ((lookupReg players raw.player_id).map
        (fun st => parent_test raw.player_id st)).getD false = false)
    (hrawself : raw.is_group_player = true → raw.player_id ∉ raw.group_childs) :
    create_player_state ctx raw (create_player_state ctx raw players) =
      create_player_state ctx raw players := by
  have htest : ∀ e ∈ ensureReg players raw.player_id raw.provider_id,
      e.1 = raw.player_id → parent_test raw.player_id e.2 = false := by
    intro e he hkey
    unfold ensureReg at he
    by_cases hs : (lookupReg players raw.player_id).isSome = true
    · rw [if_pos hs] at he
      have hlook := lookupReg_of_mem_nodup players hnd e he
      rw [hkey] at hlook
      rw [hlook] at hold
      simpa using hold
    · rw [if_neg hs] at he
      rcases List.mem_append.mp he with h1 | h2
      · exact absurd (by rw [← hkey]; exact lookupReg_isSome_of_mem players e h1) hs
      · have he2 : e = (raw.player_id, newPlayer raw.player_id raw.provider_id) := by
          simpa using h2
        rw [he2]
        rfl
  have hsome : (lookupReg (ensureReg players raw.player_id raw.provider_id)
      raw.player_id).isSome = true := by
    rw [lookupReg_ensure_self]
    rfl
  rw [create_player_state_eq ctx raw players]
  exact step_idem_core ctx raw (ensureReg players raw.player_id raw.provider_id)
    htest hrawself hsome

/-- C9, counterexample: reconciling `cexRaw` once resolves the stale
self-referential stored record as the first powered "parent", so
`active_queue = "p"` and the raw elapsed time 5 is kept; reconciling a
second time with identical context scans the now-fresh record, resolves
parent "B" instead, and mirrors B's elapsed time 7 — the two effective
records differ in more than the timestamp. -/
theorem reconcile_idempotent_cex :
    (lookupReg (create_player_state noCtrlCtx cexRaw
        (create_player_state noCtrlCtx cexRaw cexReg)) "p").map
      (fun r => (r.active_queue, r.elapsed_time)) = some ("B", 7) ∧
    (lookupReg (create_player_state noCtrlCtx cexRaw cexReg) "p").map
      (fun r => (r.active_queue, r.elapsed_time)) = some ("p", 5) := by
  refine ⟨by decide, by decide⟩

/-- C9, witness for the amended idempotence: a fresh child of one
powered parent. -/
theorem reconcile_idempotent_amended_witness :
    create_player_state noCtrlCtx mRaw (create_player_state noCtrlCtx mRaw mReg1) =
      create_player_state noCtrlCtx mRaw mReg1 :=
  reconcile_idempotent_amended noCtrlCtx mRaw mReg1 (by decide) (by decide)
    (by decide)

end PlayerManager
